import Mathlib

/-!
Shallow embedding of `homework.py` (a Telegram homework status polling bot)
and proofs about its observable behaviour.

Python values that flow through the program (JSON bodies, environment
variables, dictionary fields) are modelled by the inductive `PyVal`.
Exceptions are modelled by `PErr`; a function that can raise returns
`Except PErr _`.  The main loop body (one iteration of the `while True`
in `main`) is the pure function `iterate`, taking the environment's
behaviour for that iteration (`IterEnv`: the outcome of the HTTP fetch and
of the Telegram transport) and producing the next `State` together with the
iteration's observable outputs (notifications, log lines, the sleep).
-/

/-- A Python value, as used by `homework.py`: `None`, strings, integers,
booleans, lists and (string-keyed) dictionaries. -/
inductive PyVal where
  | none : PyVal
  | str : String → PyVal
  | int : Int → PyVal
  | bool : Bool → PyVal
  | list : List PyVal → PyVal
  | dict : List (String × PyVal) → PyVal

/-- A Python exception, as raised or caught by `homework.py`.
`responseError` is the project's own `exceptions.ResponseError`;
`httpError` is `requests.exceptions.HTTPError` (it carries the status code
and the message built by `raise_for_status`); `other` stands for any other
exception reaching the loop's `except Exception` (e.g. connection or JSON
decode errors), carrying its string form. -/
inductive PErr where
  | typeError (msg : String)
  | responseError (msg : String)
  | keyError (key : String)
  | httpError (status : Nat) (msg : String)
  | other (msg : String)
deriving Repr, DecidableEq

/-- First-match lookup in a Python dict (keys are unique in a real dict,
so first-match agrees with dict semantics). `none` means the key is absent. -/
def pyDictLookup : List (String × PyVal) → String → Option PyVal
  | [], _ => Option.none
  | (k, v) :: rest, key => if key = k then Option.some v else pyDictLookup rest key

/-- Python `d.get(key)`: the value, or `None` when the key is absent.
(Like Python, this conflates an absent key with a present `None` value.) -/
def pyDictGet (d : List (String × PyVal)) (key : String) : PyVal :=
  (pyDictLookup d key).getD .none

/-- Python `response.get(key)` where `response` may be any value; only ever
applied to values already known to be dicts (after `check_response`). -/
def pyValGet : PyVal → String → PyVal
  | .dict d, key => pyDictGet d key
  | _, _ => .none

/-- Python `d[key]`: raises `KeyError` when the key is absent. -/
def pyDictIndex (d : List (String × PyVal)) (key : String) : Except PErr PyVal :=
  match pyDictLookup d key with
  | Option.some v => .ok v
  | Option.none => .error (.keyError key)

/-- Python `str()` of a value, for the f-strings in the source.  The claims
only ever render scalar values; container rendering is abbreviated. -/
def pyStr : PyVal → String
  | .none => "None"
  | .str s => s
  | .int n => toString n
  | .bool b => if b then "True" else "False"
  | .list _ => "<list>"
  | .dict _ => "<dict>"

/-- The apostrophe character, used by Python's `str()` of a `KeyError`. -/
def apostrophe : String := String.singleton (Char.ofNat 39)

/-- Python `str(error)` for the exceptions of this program, as interpolated
into `f'Сбой в работе программы: {error}'`. -/
def errStr : PErr → String
  | .typeError m => m
  | .responseError m => m
  | .keyError k => apostrophe ++ k ++ apostrophe
  | .httpError _ m => m
  | .other m => m

/- ## Module-level constants of homework.py -/

def RETRY_TIME : Nat := 600

def ENDPOINT : String := "https://practicum.yandex.ru/api/user_api/homework_statuses/"

def HOMEWORK_VERDICTS : List (String × String) :=
  [("approved", "Работа проверена: ревьюеру всё понравилось. Ура!"),
   ("reviewing", "Работа взята на проверку ревьюером."),
   ("rejected", "Работа проверена: у ревьюера есть замечания.")]

/-- First-match lookup in the verdict table (`HOMEWORK_VERDICTS.get`). -/
def lookupStr (key : String) : List (String × String) → Option String
  | [] => Option.none
  | (k, v) :: rest => if key = k then Option.some v else lookupStr key rest

/-- `HOMEWORK_VERDICTS.get(homework_status)`: `dict.get` first hashes its
argument, so an unhashable status value (a JSON array or object, i.e. a
Python `list`/`dict`) raises `TypeError: unhashable type`; any hashable
value (string, int, bool, `None`) that is not one of the three string keys
yields `None`. -/
def verdictGet (statusVal : PyVal) : Except PErr (Option String) :=
  match statusVal with
  | .str s => .ok (lookupStr s HOMEWORK_VERDICTS)
  | .list _ =>
    .error (.typeError ("unhashable type: " ++ apostrophe ++ "list" ++ apostrophe))
  | .dict _ =>
    .error (.typeError ("unhashable type: " ++ apostrophe ++ "dict" ++ apostrophe))
  | _ => .ok Option.none

/-- The three module-level credentials, as loaded by `os.getenv` (each is a
string or `None` at runtime; the chat id is checked for `int` as well, so the
model keeps the general `PyVal` type). -/
structure Config where
  PRACTICUM_TOKEN : PyVal
  TELEGRAM_TOKEN : PyVal
  TELEGRAM_CHAT_ID : PyVal

def PyVal.isStr : PyVal → Bool
  | .str _ => true
  | _ => false

def PyVal.isInt : PyVal → Bool
  | .int _ => true
  | _ => false

/- ## The functions of homework.py -/

/-- The result dictionary of `send_message`:
`{'success': bool, 'error': exception-or-None}`. -/
structure SendResult where
  success : Bool
  error : Option String
deriving Repr, DecidableEq

/-- `send_message(bot, message)`: attempts `bot.sendMessage(...)`; the
transport's behaviour for this call is `sendRaises` (`some e` means the call
raises an exception rendered as `e`).  Any exception is caught and returned
as data; the function itself never raises. -/
def send_message (sendRaises : Option String) (_message : String) : SendResult :=
  match sendRaises with
  | Option.none => { success := true, error := Option.none }
  | Option.some e => { success := false, error := Option.some e }

/-- `requests.models.Response.raise_for_status`: raises `HTTPError` exactly
for status codes 400–499 (client error) and 500–599 (server error). -/
def raise_for_status (status : Nat) (reason url : String) : Except PErr Unit :=
  if 400 ≤ status ∧ status < 500 then
    .error (.httpError status
      (toString status ++ " Client Error: " ++ reason ++ " for url: " ++ url))
  else if 500 ≤ status ∧ status < 600 then
    .error (.httpError status
      (toString status ++ " Server Error: " ++ reason ++ " for url: " ++ url))
  else .ok ()

/-- `get_api_answer(timestamp)`: performs the GET (whose outcome — status
code, reason, url and parsed JSON body — is the environment's input here),
calls `response.raise_for_status()` and returns `response.json()`. -/
def get_api_answer (_timestamp : PyVal) (status : Nat) (reason url : String)
    (body : PyVal) : Except PErr PyVal :=
  match raise_for_status status reason url with
  | .error e => .error e
  | .ok _ => .ok body

/-- `check_response(response)`: `TypeError` when the body is not a dict,
`ResponseError` when `response.get('homeworks')` is `None` (absent key or
literal `None`), `TypeError` when it is not a list; otherwise the list. -/
def check_response (response : PyVal) : Except PErr (List PyVal) :=
  match response with
  | .dict d =>
    match pyDictGet d "homeworks" with
    | .none => .error (.responseError "Ошибочный ответ API. Отсутствует список работ")
    | .list hs => .ok hs
    | _ => .error (.typeError "Ошибочный ответ API. Некорректный формат списка работ")
  | _ => .error (.typeError "Ответ API не является словарём")

/-- `parse_status(homework)`: reads `homework['homework_name']` and
`homework['status']` (a `KeyError` when absent), looks the status up in
`HOMEWORK_VERDICTS` — an unhashable status value makes the `.get` call
itself raise `TypeError` — and builds the message; raises `ResponseError`
on an unknown (hashable) status.  Indexing a non-dict raises `TypeError`
in Python. -/
def parse_status (homework : PyVal) : Except PErr String :=
  match homework with
  | .dict d =>
    match pyDictIndex d "homework_name" with
    | .error e => .error e
    | .ok name =>
      match pyDictIndex d "status" with
      | .error e => .error e
      | .ok statusVal =>
        match verdictGet statusVal with
        | .error e => .error e
        | .ok (Option.some verdict) =>
          .ok ("Изменился статус проверки работы \"" ++ pyStr name ++ "\". " ++ verdict)
        | .ok Option.none =>
          .error (.responseError "Недокументированный статус домашней работы")
  | _ => .error (.typeError "Объект не является словарём")

/-- `check_tokens()`: `isinstance` checks on the three credentials. -/
def check_tokens (cfg : Config) : Bool :=
  cfg.PRACTICUM_TOKEN.isStr && cfg.TELEGRAM_TOKEN.isStr
    && (cfg.TELEGRAM_CHAT_ID.isStr || cfg.TELEGRAM_CHAT_ID.isInt)

/-- The claimed contract of `check_tokens`, written from the spec's words
(for comparison with the source function): true iff all three credentials
are NON-EMPTY strings, the chat id alternatively an integer. -/
def check_tokens_claimed (cfg : Config) : Bool :=
  (match cfg.PRACTICUM_TOKEN with | .str s => !(s == "") | _ => false)
    && (match cfg.TELEGRAM_TOKEN with | .str s => !(s == "") | _ => false)
    && ((match cfg.TELEGRAM_CHAT_ID with | .str s => !(s == "") | _ => false)
        || cfg.TELEGRAM_CHAT_ID.isInt)

/- ## The main loop -/

/-- The loop's mutable state: the polling cursor `timestamp` (an int at
start-up, then whatever `response.get('current_date')` returned) and
`last_sent_error`. -/
structure State where
  timestamp : PyVal
  last_sent_error : String

/-- One observable output of an iteration. -/
inductive Output where
  | notify (message : String) (result : SendResult)
  | logInfo (message : String)
  | logError (message : String)
  | sleep (seconds : Nat)
  | exitProcess (code : Int)
deriving Repr, DecidableEq

/-- The environment's behaviour during one iteration: the outcome of the
`get_api_answer` call (already evaluated: an exception, or the parsed JSON
body) and whether the Telegram transport raises for a `send_message` call
made in this iteration (at most one such call happens per iteration). -/
structure IterEnv where
  fetchResult : Except PErr PyVal
  notifyBehavior : Option String

/-- The `try` block of one loop iteration (lines 112–128 of `homework.py`):
fetch, validate, re-read `homeworks`, on a non-empty list notify about the
first record and log the outcome, then set the cursor to
`response.get('current_date')`.  Any raised exception is the `.error` case.
(The catch-all `_` homeworks case is reached only for the empty list: a
non-list value would already have made `check_response` raise.) -/
def tryBody (cfg : Config) (s : State) (env : IterEnv) :
    Except PErr (State × List Output) :=
  match env.fetchResult with
  | .error e => .error e
  | .ok response =>
    match check_response response with
    | .error e => .error e
    | .ok _ =>
      match pyValGet response "homeworks" with
      | .list (hw :: _) =>
        match parse_status hw with
        | .error e => .error e
        | .ok msg =>
          let result := send_message env.notifyBehavior msg
          let logOut :=
            if result.success then
              Output.logInfo
                ("Отправлено сообщение для id " ++ pyStr cfg.TELEGRAM_CHAT_ID)
            else
              Output.logError
                ("Ошибка при отправке сообщения для id "
                  ++ pyStr cfg.TELEGRAM_CHAT_ID ++ " ("
                  ++ (result.error.getD "None") ++ ")")
          .ok ({ timestamp := pyValGet response "current_date",
                 last_sent_error := s.last_sent_error },
               [Output.notify msg result, logOut])
      | _ =>
        .ok ({ timestamp := pyValGet response "current_date",
               last_sent_error := s.last_sent_error }, [])

/-- The error message built in the `except` branch. -/
def failMsg (e : PErr) : String := "Сбой в работе программы: " ++ errStr e

/-- One full iteration of the `while True` loop, including the `except`
branch (dedup against `last_sent_error`, notify, always log) and the
`finally: time.sleep(RETRY_TIME)`. -/
def iterate (cfg : Config) (s : State) (env : IterEnv) : State × List Output :=
  let r : State × List Output :=
    match tryBody cfg s env with
    | .ok p => p
    | .error e =>
      let msg := failMsg e
      if msg = s.last_sent_error then
        (s, [Output.logError msg])
      else
        ({ s with last_sent_error := msg },
         [Output.notify msg (send_message env.notifyBehavior msg),
          Output.logError msg])
  (r.1, r.2 ++ [Output.sleep RETRY_TIME])

/-- A finite run of consecutive iterations, concatenating their outputs. -/
def runIters (cfg : Config) : State → List IterEnv → State × List Output
  | s, [] => (s, [])
  | s, env :: rest =>
    let p := iterate cfg s env
    let q := runIters cfg p.1 rest
    (q.1, p.2 ++ q.2)

/-- Start-up of `main()` (lines 103–110): if `check_tokens()` fails, log a
critical message and `exit(-1)` before the loop; otherwise the initial loop
state (`timestamp = int(time.time())`, `last_sent_error = ''`). -/
def main_startup (cfg : Config) (now : Int) : Except (Int × String) State :=
  if check_tokens cfg then
    .ok { timestamp := .int now, last_sent_error := "" }
  else
    .error (-1, "Ошибка при загрузке переменных окружения. Программа принудительно остановлена")

/- ## Derived notions used by the statements -/

/-- The spec's `FormatError` covers the malformed-body exceptions raised by
`check_response` (`TypeError` and `ResponseError`). -/
def isFormatError : PErr → Bool
  | .typeError _ => true
  | .responseError _ => true
  | _ => false

/-- Count of notification attempts in an output trace. -/
def countNotify (outs : List Output) : Nat :=
  outs.countP (fun o => match o with | .notify _ _ => true | _ => false)

/-- Count of error-log lines with a given message in an output trace. -/
def countLogError (m : String) (outs : List Output) : Nat :=
  outs.countP (fun o => match o with | .logError m2 => m2 == m | _ => false)

/-- A concrete configuration used by closed instances below. -/
def cfgNone : Config := ⟨.none, .none, .none⟩

/- ## Concrete scenario data (spec section 8) -/

/-- The record of the spec's approved-homework scenario. -/
def hw1record : PyVal :=
  .dict [("homework_name", .str "hw1"), ("status", .str "approved")]

/-- A second, different record, to show that only the first is used. -/
def hw2record : PyVal :=
  .dict [("homework_name", .str "hw2"), ("status", .str "rejected")]

/-- The response body of the approved-homework scenario. -/
def scenarioBody : PyVal :=
  .dict [("homeworks", .list [hw1record]), ("current_date", .int 1700000000)]

/-- The same body with a second record appended to the list. -/
def scenarioBodyTwo : PyVal :=
  .dict [("homeworks", .list [hw1record, hw2record]), ("current_date", .int 1700000000)]

/-- The message the scenario expects `notify` to be called with. -/
def scenarioMsg : String :=
  "Изменился статус проверки работы \"hw1\". Работа проверена: ревьюеру всё понравилось. Ура!"

/- ## Helper lemmas -/

lemma isStr_iff (v : PyVal) : v.isStr = true ↔ ∃ s, v = .str s := by
  cases v <;> simp [PyVal.isStr]

lemma isInt_iff (v : PyVal) : v.isInt = true ↔ ∃ n, v = .int n := by
  cases v <;> simp [PyVal.isInt]

lemma raise_for_status_err (status : Nat) (reason url : String)
    (h : 400 ≤ status ∧ status < 600) :
    ∃ m, raise_for_status status reason url = .error (.httpError status m) := by
  unfold raise_for_status
  by_cases h5 : status < 500
  · rw [if_pos ⟨h.1, h5⟩]; exact ⟨_, rfl⟩
  · rw [if_neg (by omega), if_pos (by omega)]; exact ⟨_, rfl⟩

lemma raise_for_status_ok (status : Nat) (reason url : String)
    (h : status < 400 ∨ 600 ≤ status) :
    raise_for_status status reason url = .ok () := by
  unfold raise_for_status
  rw [if_neg (by omega), if_neg (by omega)]

/- ## C1 — parse_status -/

/-- C1 counterexample: a record whose status is a JSON array makes the
`HOMEWORK_VERDICTS.get` call raise `TypeError: unhashable type` before the
unknown-status check is reached, so `parse_status` does NOT fail with the
unknown-status `ResponseError` there as the claim demands. -/
theorem hw_parse_status_counterexample :
    parse_status (.dict [("homework_name", .str "hw1"), ("status", .list [])])
      = .error (.typeError ("unhashable type: " ++ apostrophe ++ "list" ++ apostrophe))
    ∧ PErr.typeError ("unhashable type: " ++ apostrophe ++ "list" ++ apostrophe)
      ≠ PErr.responseError "Недокументированный статус домашней работы" :=
  ⟨rfl, fun h => PErr.noConfusion h⟩

/-- C1 (amended): on a record with a string name and status `approved` /
`reviewing` / `rejected`, `parse_status` returns exactly the template
message with the fixed verdict from the three-entry table; on any other
HASHABLE status value (string, integer, boolean, null) it raises
`ResponseError` (the spec's `UnknownStatusError`); an unhashable status
value (array or object) instead raises `TypeError` from the dictionary
lookup. -/
theorem hw_parse_status_amended (name : String) (sv : PyVal) :
    parse_status (.dict [("homework_name", .str name), ("status", .str "approved")])
      = .ok ("Изменился статус проверки работы \"" ++ name ++ "\". "
          ++ "Работа проверена: ревьюеру всё понравилось. Ура!")
    ∧ parse_status (.dict [("homework_name", .str name), ("status", .str "reviewing")])
      = .ok ("Изменился статус проверки работы \"" ++ name ++ "\". "
          ++ "Работа взята на проверку ревьюером.")
    ∧ parse_status (.dict [("homework_name", .str name), ("status", .str "rejected")])
      = .ok ("Изменился статус проверки работы \"" ++ name ++ "\". "
          ++ "Работа проверена: у ревьюера есть замечания.")
    ∧ ((sv ≠ .str "approved" ∧ sv ≠ .str "reviewing" ∧ sv ≠ .str "rejected"
        ∧ (∀ l, sv ≠ .list l) ∧ (∀ d, sv ≠ .dict d)) →
        parse_status (.dict [("homework_name", .str name), ("status", sv)])
          = .error (.responseError "Недокументированный статус домашней работы"))
    ∧ (∀ l, parse_status (.dict [("homework_name", .str name), ("status", .list l)])
        = .error (.typeError ("unhashable type: " ++ apostrophe ++ "list" ++ apostrophe)))
    ∧ (∀ d, parse_status (.dict [("homework_name", .str name), ("status", .dict d)])
        = .error (.typeError ("unhashable type: " ++ apostrophe ++ "dict" ++ apostrophe))) := by
  refine ⟨rfl, rfl, rfl, ?_, fun l => rfl, fun d => rfl⟩
  rintro ⟨h1, h2, h3, hl, hd⟩
  cases sv with
  | str s =>
    have hs1 : ¬ s = "approved" := fun h => h1 (by rw [h])
    have hs2 : ¬ s = "reviewing" := fun h => h2 (by rw [h])
    have hs3 : ¬ s = "rejected" := fun h => h3 (by rw [h])
    simp [parse_status, pyDictIndex, pyDictLookup, verdictGet, HOMEWORK_VERDICTS,
      lookupStr, hs1, hs2, hs3]
  | none => rfl
  | int n => rfl
  | bool b => rfl
  | list l => exact absurd rfl (hl l)
  | dict d => exact absurd rfl (hd d)

/-- Witness for C1's amended theorem at concrete inputs. -/
theorem hw_parse_status_amended_witness :
    parse_status (.dict [("homework_name", .str "hw1"), ("status", .str "approved")])
      = .ok ("Изменился статус проверки работы \"" ++ "hw1" ++ "\". "
          ++ "Работа проверена: ревьюеру всё понравилось. Ура!")
    ∧ parse_status (.dict [("homework_name", .str "hw1"), ("status", .str "retry")])
      = .error (.responseError "Недокументированный статус домашней работы")
    ∧ parse_status (.dict [("homework_name", .str "hw1"), ("status", .dict [])])
      = .error (.typeError ("unhashable type: " ++ apostrophe ++ "dict" ++ apostrophe)) :=
  ⟨(hw_parse_status_amended "hw1" (.str "retry")).1,
   (hw_parse_status_amended "hw1" (.str "retry")).2.2.2.1
     ⟨by simp, by simp, by simp, fun l => by simp, fun d => by simp⟩,
   (hw_parse_status_amended "hw1" (.str "retry")).2.2.2.2.2 []⟩

/- ## C2 — check_response -/

/-- C2: `check_response` raises a format error (`TypeError`/`ResponseError`)
when the body is not a dict, when the `homeworks` key is absent, or when it
is present but not a list; otherwise it returns the list unchanged
(including the empty list). -/
theorem hw_check_response_spec (response : PyVal) :
    ((∀ d, response ≠ .dict d) →
      ∃ e, check_response response = .error e ∧ isFormatError e = true)
    ∧ (∀ d, response = .dict d → pyDictLookup d "homeworks" = Option.none →
      ∃ e, check_response response = .error e ∧ isFormatError e = true)
    ∧ (∀ d v, response = .dict d → pyDictLookup d "homeworks" = Option.some v →
      (∀ hs, v ≠ .list hs) →
      ∃ e, check_response response = .error e ∧ isFormatError e = true)
    ∧ (∀ d hs, response = .dict d → pyDictLookup d "homeworks" = Option.some (.list hs) →
      check_response response = .ok hs) := by
  refine ⟨?_, ?_, ?_, ?_⟩
  · intro hnd
    cases response with
    | dict d => exact absurd rfl (hnd d)
    | none => exact ⟨_, rfl, rfl⟩
    | str s => exact ⟨_, rfl, rfl⟩
    | int n => exact ⟨_, rfl, rfl⟩
    | bool b => exact ⟨_, rfl, rfl⟩
    | list l => exact ⟨_, rfl, rfl⟩
  · intro d hd habs
    subst hd
    simp only [check_response, pyDictGet, habs, Option.getD]
    exact ⟨_, rfl, rfl⟩
  · intro d v hd hpres hnl
    subst hd
    simp only [check_response, pyDictGet, hpres, Option.getD]
    cases v with
    | list hs => exact absurd rfl (hnl hs)
    | none => exact ⟨_, rfl, rfl⟩
    | str s => exact ⟨_, rfl, rfl⟩
    | int n => exact ⟨_, rfl, rfl⟩
    | bool b => exact ⟨_, rfl, rfl⟩
    | dict d2 => exact ⟨_, rfl, rfl⟩
  · intro d hs hd hpres
    subst hd
    simp only [check_response, pyDictGet, hpres, Option.getD]

/-- Witness for C2 at concrete inputs. -/
theorem hw_check_response_spec_witness :
    (∃ e, check_response (.list []) = .error e ∧ isFormatError e = true)
    ∧ (∃ e, check_response (.dict []) = .error e ∧ isFormatError e = true)
    ∧ (∃ e, check_response (.dict [("homeworks", .int 3)]) = .error e
        ∧ isFormatError e = true)
    ∧ check_response (.dict [("homeworks", .list [])]) = .ok [] :=
  ⟨(hw_check_response_spec (.list [])).1 (fun d h => by cases h),
   (hw_check_response_spec (.dict [])).2.1 [] rfl rfl,
   (hw_check_response_spec (.dict [("homeworks", .int 3)])).2.2.1
     [("homeworks", .int 3)] (.int 3) rfl rfl (fun hs h => by cases h),
   (hw_check_response_spec (.dict [("homeworks", .list [])])).2.2.2
     [("homeworks", .list [])] [] rfl rfl⟩

/- ## C3 — check_tokens -/

/-- C3 counterexample: with all three credentials equal to the EMPTY string,
`check_tokens` returns `true`, while the claimed contract ("non-empty
strings") demands `false`. -/
theorem hw_check_tokens_counterexample :
    check_tokens ⟨.str "", .str "", .str ""⟩ = true
    ∧ check_tokens_claimed ⟨.str "", .str "", .str ""⟩ = false :=
  ⟨rfl, rfl⟩

/-- C3 (amended): `check_tokens` returns true iff all three credentials are
strings — possibly empty — the chat identifier alternatively an integer. -/
theorem hw_check_tokens_amended (cfg : Config) :
    check_tokens cfg = true ↔
      ((∃ s, cfg.PRACTICUM_TOKEN = .str s) ∧ (∃ s, cfg.TELEGRAM_TOKEN = .str s)
        ∧ ((∃ s, cfg.TELEGRAM_CHAT_ID = .str s) ∨ (∃ n, cfg.TELEGRAM_CHAT_ID = .int n))) := by
  simp [check_tokens, Bool.and_eq_true, Bool.or_eq_true, isStr_iff, isInt_iff, and_assoc]

/- ## C5 — get_api_answer -/

/-- C5 counterexample: HTTP status 304 is not in the 2xx range, yet
`get_api_answer` raises nothing and returns the parsed body
(`raise_for_status` only raises for 4xx/5xx). -/
theorem hw_get_api_answer_counterexample :
    ¬(200 ≤ 304 ∧ 304 < 300)
    ∧ get_api_answer (.int 0) 304 "Not Modified" ENDPOINT (.dict [])
        = .ok (.dict []) :=
  ⟨by omega, rfl⟩

/-- C5 (amended): `get_api_answer` raises `HTTPError` (carrying the status)
exactly for statuses 400–599; for any other status — 2xx, but also 1xx/3xx —
it returns the parsed JSON body. -/
theorem hw_get_api_answer_amended (ts : PyVal) (status : Nat) (reason url : String)
    (body : PyVal) :
    (400 ≤ status ∧ status < 600 →
      ∃ m, get_api_answer ts status reason url body = .error (.httpError status m))
    ∧ (status < 400 ∨ 600 ≤ status →
      get_api_answer ts status reason url body = .ok body) := by
  constructor
  · intro h
    obtain ⟨m, hm⟩ := raise_for_status_err status reason url h
    exact ⟨m, by simp [get_api_answer, hm]⟩
  · intro h
    simp [get_api_answer, raise_for_status_ok status reason url h]

/-- Witness for C5's amended theorem at statuses 500 and 200. -/
theorem hw_get_api_answer_amended_witness :
    (∃ m, get_api_answer (.int 0) 500 "Internal Server Error" ENDPOINT (.dict [])
        = .error (.httpError 500 m))
    ∧ get_api_answer (.int 0) 200 "OK" ENDPOINT (.dict [("homeworks", .list [])])
        = .ok (.dict [("homeworks", .list [])]) :=
  ⟨(hw_get_api_answer_amended (.int 0) 500 "Internal Server Error" ENDPOINT
      (.dict [])).1 (by decide),
   (hw_get_api_answer_amended (.int 0) 200 "OK" ENDPOINT
      (.dict [("homeworks", .list [])])).2 (by decide)⟩

/- ## C8 — send_message -/

/-- C8: `send_message` is a total function into `SendResult`: for every
message and every transport behaviour it returns a success flag, and a
transport exception is captured in the `error` field, never propagated. -/
theorem hw_send_message_total (b : Option String) (m : String) :
    (send_message b m).success = b.isNone ∧ (send_message b m).error = b := by
  cases b <;> exact ⟨rfl, rfl⟩

/- ## Loop-level helper lemmas -/

lemma countNotify_append (a b : List Output) :
    countNotify (a ++ b) = countNotify a + countNotify b := by
  simp [countNotify, List.countP_append]

lemma countLogError_append (m : String) (a b : List Output) :
    countLogError m (a ++ b) = countLogError m a + countLogError m b := by
  simp [countLogError, List.countP_append]

/-- A failing iteration: when the error message equals `last_sent_error`
only the log line (and the sleep) is emitted and the state is unchanged;
when it differs, the notification is attempted first and
`last_sent_error` is updated. -/
lemma iterate_fail (cfg : Config) (s : State) (env : IterEnv) (e : PErr)
    (h : tryBody cfg s env = .error e) :
    (s.last_sent_error = failMsg e →
      iterate cfg s env
        = (s, [Output.logError (failMsg e), Output.sleep RETRY_TIME]))
    ∧ (s.last_sent_error ≠ failMsg e →
      iterate cfg s env
        = ({ s with last_sent_error := failMsg e },
           [Output.notify (failMsg e) (send_message env.notifyBehavior (failMsg e)),
            Output.logError (failMsg e), Output.sleep RETRY_TIME])) := by
  constructor
  · intro hm
    simp only [iterate, h]
    rw [if_pos hm.symm]
    rfl
  · intro hm
    simp only [iterate, h]
    rw [if_neg (fun hh => hm hh.symm)]
    rfl

/-- A successful `tryBody` never emits an exit output. -/
lemma tryBody_ok_no_exit (cfg : Config) (s : State) (env : IterEnv)
    (p : State × List Output) (h : tryBody cfg s env = .ok p) :
    ∀ code, Output.exitProcess code ∉ p.2 := by
  intro code hmem
  unfold tryBody at h
  split at h
  · exact Except.noConfusion h
  · split at h
    · exact Except.noConfusion h
    · split at h
      · split at h
        · exact Except.noConfusion h
        · simp only [Except.ok.injEq] at h
          subst h
          simp only [List.mem_cons, List.not_mem_nil, or_false] at hmem
          rcases hmem with h | h
          · exact Output.noConfusion h
          · split at h <;> exact Output.noConfusion h
      · simp only [Except.ok.injEq] at h
        subst h
        exact List.not_mem_nil _ hmem

/-- Dedup invariant for a run in which every iteration fails with the same
message `m`: the notification count is 0 when `m` is already the last sent
error (or the run is empty) and 1 otherwise, and every iteration logs `m`. -/
lemma dedup_aux (cfg : Config) (m : String) :
    ∀ (envs : List IterEnv) (s : State),
    (∀ env ∈ envs, ∃ e, (∀ c2 s2, tryBody c2 s2 env = .error e) ∧ failMsg e = m) →
    (countNotify (runIters cfg s envs).2
        = (if s.last_sent_error = m ∨ envs.isEmpty then 0 else 1))
    ∧ countLogError m (runIters cfg s envs).2 = envs.length := by
  intro envs
  induction envs with
  | nil => intro s _; simp [runIters, countNotify, countLogError]
  | cons env rest ih =>
    intro s hfail
    obtain ⟨e, he, hm⟩ := hfail env (List.mem_cons_self env rest)
    have hfail' : ∀ env2 ∈ rest,
        ∃ e2, (∀ c2 s2, tryBody c2 s2 env2 = .error e2) ∧ failMsg e2 = m :=
      fun env2 h2 => hfail env2 (List.mem_cons_of_mem env h2)
    have hrun : runIters cfg s (env :: rest)
        = ((runIters cfg (iterate cfg s env).1 rest).1,
           (iterate cfg s env).2 ++ (runIters cfg (iterate cfg s env).1 rest).2) := rfl
    by_cases hcur : s.last_sent_error = m
    · have hit := (iterate_fail cfg s env e (he cfg s)).1 (by rw [hcur, hm])
      obtain ⟨ihN, ihL⟩ := ih s hfail'
      rw [hrun, hit]
      constructor
      · rw [countNotify_append, ihN]
        simp [hcur, countNotify]
      · rw [countLogError_append, ihL]
        have h1 : countLogError m
            [Output.logError (failMsg e), Output.sleep RETRY_TIME] = 1 := by
          simp [countLogError, hm]
        rw [h1]
        simp [Nat.add_comm]
    · have hne : s.last_sent_error ≠ failMsg e := fun h => hcur (hm ▸ h)
      have hit := (iterate_fail cfg s env e (he cfg s)).2 hne
      have hlast : ({ s with last_sent_error := failMsg e } : State).last_sent_error = m := hm
      obtain ⟨ihN, ihL⟩ := ih { s with last_sent_error := failMsg e } hfail'
      rw [hrun, hit]
      constructor
      · rw [countNotify_append, ihN]
        simp [hcur, hm, countNotify]
      · rw [countLogError_append, ihL]
        have h1 : countLogError m
            [Output.notify (failMsg e) (send_message env.notifyBehavior (failMsg e)),
             Output.logError (failMsg e), Output.sleep RETRY_TIME] = 1 := by
          simp [countLogError, hm]
        rw [h1]
        simp [Nat.add_comm]

/- ## C4 — error notification dedup -/

/-- C4: across consecutive iterations all failing with the same error
message `m`, at most one failure notification is attempted (none at all when
`m` was already the last sent error, exactly one otherwise), while the error
is logged on every failing iteration. -/
theorem hw_error_dedup (cfg : Config) (s : State) (envs : List IterEnv) (m : String)
    (hfail : ∀ env ∈ envs,
      ∃ e, (∀ c2 s2, tryBody c2 s2 env = .error e) ∧ failMsg e = m) :
    countNotify (runIters cfg s envs).2 ≤ 1
    ∧ (s.last_sent_error = m → countNotify (runIters cfg s envs).2 = 0)
    ∧ (s.last_sent_error ≠ m → envs ≠ [] → countNotify (runIters cfg s envs).2 = 1)
    ∧ countLogError m (runIters cfg s envs).2 = envs.length := by
  obtain ⟨hN, hL⟩ := dedup_aux cfg m envs s hfail
  refine ⟨?_, ?_, ?_, hL⟩
  · rw [hN]; split <;> omega
  · intro hc; rw [hN, if_pos (Or.inl hc)]
  · intro hc hne
    rw [hN, if_neg (fun h => h.elim hc (fun hemp => hne (List.isEmpty_iff.mp hemp)))]

/-- Witness for C4: two consecutive iterations failing with the same
message notify exactly once. -/
theorem hw_error_dedup_witness :
    countNotify (runIters cfgNone ⟨.int 0, ""⟩
      [⟨.error (.other "boom"), Option.none⟩,
       ⟨.error (.other "boom"), Option.none⟩]).2 = 1 :=
  (hw_error_dedup cfgNone ⟨.int 0, ""⟩
      [⟨.error (.other "boom"), Option.none⟩,
       ⟨.error (.other "boom"), Option.none⟩]
      (failMsg (.other "boom"))
      (by
        intro env h2
        simp only [List.mem_cons, List.not_mem_nil, or_false, or_self] at h2
        subst h2
        exact ⟨.other "boom", fun c2 s2 => rfl, rfl⟩)).2.2.1
    (by decide) (by simp)

/- ## C6 — the approved-homework scenario -/

/-- C6: for any starting timestamp and last-sent-error, on the scenario
response the cursor becomes 1700000000, `notify` is attempted first with
exactly the scenario message, and exactly one notification happens — also
when the homeworks list holds a second record (only the first is used). -/
theorem hw_scenario_approved (cfg : Config) (ts : PyVal) (lastErr : String)
    (nb : Option String) :
    (iterate cfg ⟨ts, lastErr⟩ ⟨.ok scenarioBody, nb⟩).1.timestamp = .int 1700000000
    ∧ (iterate cfg ⟨ts, lastErr⟩ ⟨.ok scenarioBody, nb⟩).2.head?
        = Option.some (.notify scenarioMsg (send_message nb scenarioMsg))
    ∧ countNotify (iterate cfg ⟨ts, lastErr⟩ ⟨.ok scenarioBody, nb⟩).2 = 1
    ∧ (iterate cfg ⟨ts, lastErr⟩ ⟨.ok scenarioBodyTwo, nb⟩).2.head?
        = Option.some (.notify scenarioMsg (send_message nb scenarioMsg))
    ∧ countNotify (iterate cfg ⟨ts, lastErr⟩ ⟨.ok scenarioBodyTwo, nb⟩).2 = 1 := by
  cases nb <;> exact ⟨rfl, rfl, rfl, rfl, rfl⟩

/- ## C7 — resilience of the loop; exit only at start-up -/

/-- C7: every iteration — successful or failed — ends with the fixed
600-second sleep and never emits a process exit; only a failed credential
check at start-up exits, with code -1, before the loop is entered. -/
theorem hw_loop_never_exits (cfg : Config) (s : State) (env : IterEnv) (now : Int) :
    (iterate cfg s env).2.getLast? = Option.some (.sleep 600)
    ∧ (∀ code, Output.exitProcess code ∉ (iterate cfg s env).2)
    ∧ (check_tokens cfg = false →
        main_startup cfg now = .error (-1,
          "Ошибка при загрузке переменных окружения. Программа принудительно остановлена"))
    ∧ (check_tokens cfg = true → main_startup cfg now = .ok ⟨.int now, ""⟩) := by
  refine ⟨?_, ?_, ?_, ?_⟩
  · obtain ⟨l, hl⟩ : ∃ l, (iterate cfg s env).2 = l ++ [Output.sleep RETRY_TIME] :=
      ⟨_, rfl⟩
    rw [hl, List.getLast?_append_cons]
    rfl
  · intro code
    cases htb : tryBody cfg s env with
    | ok p =>
      have h2 : (iterate cfg s env).2 = p.2 ++ [Output.sleep RETRY_TIME] := by
        simp only [iterate, htb]
      rw [h2]
      intro hmem
      rcases List.mem_append.mp hmem with h | h
      · exact tryBody_ok_no_exit cfg s env p htb code h
      · simp at h
    | error e =>
      rcases iterate_fail cfg s env e htb with ⟨hEq, hNe⟩
      by_cases hc : s.last_sent_error = failMsg e
      · rw [hEq hc]; intro hmem; simp at hmem
      · rw [hNe hc]; intro hmem; simp at hmem
  · intro h; simp [main_startup, h]
  · intro h; simp [main_startup, h]

/-- Witness for C7 at a concrete failing iteration and a concrete bad
configuration. -/
theorem hw_loop_never_exits_witness :
    (iterate cfgNone ⟨.int 0, ""⟩ ⟨.error (.other "boom"), Option.none⟩).2.getLast?
      = Option.some (.sleep 600)
    ∧ main_startup cfgNone 0 = .error (-1,
        "Ошибка при загрузке переменных окружения. Программа принудительно остановлена") :=
  ⟨(hw_loop_never_exits cfgNone ⟨.int 0, ""⟩ ⟨.error (.other "boom"), Option.none⟩ 0).1,
   (hw_loop_never_exits cfgNone ⟨.int 0, ""⟩ ⟨.error (.other "boom"), Option.none⟩ 0).2.2.1 rfl⟩

/- ## C9 — when the cursor is advanced -/

/-- C9 counterexample: a malformed body (no `homeworks` key) that does carry
`current_date: 1700000000` makes the iteration fail, and the cursor is left
at its old value 100 — NOT advanced to the body's `current_date` — because
line 128 (`timestamp = response.get('current_date')`) runs after
`check_response` and is skipped when validation raises. -/
theorem hw_cursor_counterexample :
    (∃ e, tryBody cfgNone ⟨.int 100, ""⟩
        ⟨.ok (.dict [("current_date", .int 1700000000)]), Option.none⟩ = .error e)
    ∧ (iterate cfgNone ⟨.int 100, ""⟩
        ⟨.ok (.dict [("current_date", .int 1700000000)]), Option.none⟩).1.timestamp
        = .int 100
    ∧ PyVal.int 100 ≠ PyVal.int 1700000000 :=
  ⟨⟨_, rfl⟩, rfl, by simp⟩

/-- C9 (amended): the cursor is advanced only on iterations whose `try`
block completes: a failing iteration leaves the state's timestamp unchanged,
while a successful one sets it unconditionally to the response's
`current_date` read via `.get` (so `None` when the field is absent), with
no local fallback. -/
theorem hw_cursor_amended (cfg : Config) (s : State) (env : IterEnv) :
    (∀ e, tryBody cfg s env = .error e →
      (iterate cfg s env).1.timestamp = s.timestamp)
    ∧ (∀ p, tryBody cfg s env = .ok p → (iterate cfg s env).1 = p.1)
    ∧ (∀ response p, env.fetchResult = .ok response → tryBody cfg s env = .ok p →
        p.1.timestamp = pyValGet response "current_date") := by
  refine ⟨?_, ?_, ?_⟩
  · intro e h
    rcases iterate_fail cfg s env e h with ⟨h1, h2⟩
    by_cases hc : s.last_sent_error = failMsg e
    · rw [h1 hc]
    · rw [h2 hc]
  · intro p h
    simp only [iterate, h]
  · intro response p hf h
    simp only [tryBody, hf] at h
    split at h
    · exact Except.noConfusion h
    · split at h
      · split at h
        · exact Except.noConfusion h
        · simp only [Except.ok.injEq] at h
          subst h
          rfl
      · simp only [Except.ok.injEq] at h
        subst h
        rfl

/-- Witness for C9's amended theorem: a failing iteration keeps timestamp
100; on the empty-homeworks success scenario the new state's timestamp is
the body's `current_date`, 1700000600. -/
theorem hw_cursor_amended_witness :
    (iterate cfgNone ⟨.int 100, ""⟩ ⟨.error (.other "boom"), Option.none⟩).1.timestamp
      = PyVal.int 100
    ∧ ((⟨.int 1700000600, ""⟩ : State), ([] : List Output)).1.timestamp
      = pyValGet (.dict [("homeworks", .list []), ("current_date", .int 1700000600)])
          "current_date" :=
  ⟨(hw_cursor_amended cfgNone ⟨.int 100, ""⟩ ⟨.error (.other "boom"), Option.none⟩).1
      (.other "boom") rfl,
   (hw_cursor_amended cfgNone ⟨.int 100, ""⟩
      ⟨.ok (.dict [("homeworks", .list []), ("current_date", .int 1700000600)]),
       Option.none⟩).2.2
      (.dict [("homeworks", .list []), ("current_date", .int 1700000600)])
      ((⟨.int 1700000600, ""⟩ : State), ([] : List Output)) rfl rfl⟩

/- ## C10 — last_sent_error updated without checking notify's result -/

/-- C10: in the error branch `last_sent_error` is set to the new message as
soon as it differs from the previous value, for ANY transport behaviour of
the notification attempt (the returned success flag is never inspected);
consequently a later iteration failing with the same message attempts no
notification at all — the message is lost if the first send failed. -/
theorem hw_last_error_no_resend (cfg : Config) (s : State)
    (fr fr2 : Except PErr PyVal) (nb nb2 : Option String) (e e2 : PErr)
    (h1 : tryBody cfg s ⟨fr, nb⟩ = .error e)
    (hne : failMsg e ≠ s.last_sent_error) :
    (iterate cfg s ⟨fr, nb⟩).1.last_sent_error = failMsg e
    ∧ (tryBody cfg (iterate cfg s ⟨fr, nb⟩).1 ⟨fr2, nb2⟩ = .error e2 →
        failMsg e2 = failMsg e →
        countNotify (iterate cfg (iterate cfg s ⟨fr, nb⟩).1 ⟨fr2, nb2⟩).2 = 0) := by
  have hit := (iterate_fail cfg s ⟨fr, nb⟩ e h1).2 (fun h => hne h.symm)
  constructor
  · rw [hit]
  · intro h2 hm2
    have hs1 : (iterate cfg s ⟨fr, nb⟩).1.last_sent_error = failMsg e := by rw [hit]
    have hit2 := (iterate_fail cfg (iterate cfg s ⟨fr, nb⟩).1 ⟨fr2, nb2⟩ e2 h2).1
      (by rw [hs1, hm2])
    rw [hit2]
    rfl

/-- Witness for C10: the send fails (transport down), yet `last_sent_error`
is updated, and the identical failure on the next iteration notifies 0
times. -/
theorem hw_last_error_no_resend_witness :
    (iterate cfgNone ⟨.int 0, ""⟩
        ⟨.error (.other "boom"), Option.some "telegram down"⟩).1.last_sent_error
      = failMsg (.other "boom")
    ∧ countNotify (iterate cfgNone
        (iterate cfgNone ⟨.int 0, ""⟩
          ⟨.error (.other "boom"), Option.some "telegram down"⟩).1
        ⟨.error (.other "boom"), Option.some "telegram down"⟩).2 = 0 :=
  ⟨(hw_last_error_no_resend cfgNone ⟨.int 0, ""⟩
      (.error (.other "boom")) (.error (.other "boom"))
      (Option.some "telegram down") (Option.some "telegram down")
      (.other "boom") (.other "boom") rfl (by decide)).1,
   (hw_last_error_no_resend cfgNone ⟨.int 0, ""⟩
      (.error (.other "boom")) (.error (.other "boom"))
      (Option.some "telegram down") (Option.some "telegram down")
      (.other "boom") (.other "boom") rfl (by decide)).2 rfl rfl⟩
